import Mathlib

/-!
Verification of the `decimally` decimal32 codec (crate `decimally-core`)
against its natural-language specification.

The Rust sources embedded here are `src/decimal32.rs`, `src/decimal.rs`
and `src/int.rs`.  The crate modules `dpd.rs` (`digits_from_dpd`) and
`error.rs` (`DecimalStorageError`) are referenced by `decimal32.rs` but
their sources are not available; they are modelled from the spec (see the
doc comments on `DecimalStorageError` and `digits_from_dpd`).

Machine integers are embedded as `Nat`/`Int`; `u8`/`u32` truncation is
written as an explicit `% 2^w` exactly where the Rust operation can wrap.
-/

namespace Decimally

/-- Modelled from the spec: `error.rs` is absent from `src/`.  The three
variants are exactly the ones constructed in `decimal32.rs`
(`ExponentTooLarge`, `ExponentTooSmall`, `CoeffecientTooLarge`), matching
the spec's two error kinds, with the exponent kind "distinguished as
too large vs too small". -/
inductive DecimalStorageError where
  | ExponentTooLarge
  | ExponentTooSmall
  | CoeffecientTooLarge
deriving DecidableEq

/-- Rust `i16 as i8` (also `Int → i8` truncation): keep the low 8 bits,
interpreted as a two's-complement signed byte. -/
def toI8 (n : Int) : Int :=
  (n + 128) % 256 - 128

/-- Lookup table for converting a 5-bit combination field to the 2 most
significant bits of the exponent (`COMB_EXP_LOOKUP` in `decimal32.rs`). -/
def COMB_EXP_LOOKUP : List Nat :=
  [0, 0, 0, 0, 0, 0, 0, 0, 1, 1, 1, 1, 1, 1, 1, 1,
   2, 2, 2, 2, 2, 2, 2, 2, 0, 0, 1, 1, 2, 2, 3, 3]

/-- Lookup table for converting a 5-bit combination field to the most
significant digit of the coeffecient (`COMB_DIG_LOOKUP` in `decimal32.rs`). -/
def COMB_DIG_LOOKUP : List Nat :=
  [0, 1, 2, 3, 4, 5, 6, 7, 0, 1, 2, 3, 4, 5, 6, 7,
   0, 1, 2, 3, 4, 5, 6, 7, 8, 9, 8, 9, 8, 9, 0, 1]

def SIGN_MASK : Nat := 0x80000000
def COMBINATION_MASK : Nat := 0x7c000000
def EXPONENT_MASK : Nat := 0x03f00000
def COEFFECIENT_MASK : Nat := 0x000fffff

def EXPONENT_BIAS : Int := 101
def EXPONENT_MIN : Int := -95
def EXPONENT_MAX : Int := 96
def COEFFECIENT_MAX : Nat := 9999999

/-- Zero decimal (`0E1`) constant `ZERO` of `decimal32.rs`. -/
def ZERO : Nat := 0x60000000

/-- Modelled from the spec: `dpd.rs` is absent from `src/`.  Standard
DPD decode of one 10-bit declet into its three decimal digits
`d2*100 + d1*10 + d0` — the "full 8-case decode table" of Cowlishaw's
scheme that the spec requires (§4.1), with the cases selected by bits
3-1 and, in the all-large case, bits 6-5. -/
def declet_value (p : Nat) : Nat :=
  if p &&& 8 = 0 then
    -- all three digits small
    ((p >>> 7) &&& 7) * 100 + ((p >>> 4) &&& 7) * 10 + (p &&& 7)
  else if (p >>> 1) &&& 3 = 0 then
    -- b3b2b1 = 100 : low digit is 8 or 9
    ((p >>> 7) &&& 7) * 100 + ((p >>> 4) &&& 7) * 10 + (8 + (p &&& 1))
  else if (p >>> 1) &&& 3 = 1 then
    -- b3b2b1 = 101 : middle digit is 8 or 9
    ((p >>> 7) &&& 7) * 100 + (8 + ((p >>> 4) &&& 1)) * 10
      + (((p >>> 4) &&& 6) ||| (p &&& 1))
  else if (p >>> 1) &&& 3 = 2 then
    -- b3b2b1 = 110 : high digit is 8 or 9
    (8 + ((p >>> 7) &&& 1)) * 100 + ((p >>> 4) &&& 7) * 10
      + (((p >>> 7) &&& 6) ||| (p &&& 1))
  else if (p >>> 5) &&& 3 = 0 then
    -- b3b2b1 = 111, b6b5 = 00
    (8 + ((p >>> 7) &&& 1)) * 100 + (8 + ((p >>> 4) &&& 1)) * 10
      + (((p >>> 7) &&& 6) ||| (p &&& 1))
  else if (p >>> 5) &&& 3 = 1 then
    -- b3b2b1 = 111, b6b5 = 01
    (8 + ((p >>> 7) &&& 1)) * 100 + (((p >>> 7) &&& 6) ||| ((p >>> 4) &&& 1)) * 10
      + (8 + (p &&& 1))
  else if (p >>> 5) &&& 3 = 2 then
    -- b3b2b1 = 111, b6b5 = 10
    ((p >>> 7) &&& 7) * 100 + (8 + ((p >>> 4) &&& 1)) * 10 + (8 + (p &&& 1))
  else
    -- b3b2b1 = 111, b6b5 = 11
    (8 + ((p >>> 7) &&& 1)) * 100 + (8 + ((p >>> 4) &&& 1)) * 10 + (8 + (p &&& 1))

/-- Modelled from the spec: `dpd.rs` (`digits_from_dpd`) is absent from
`src/`.  Decodes `groups` consecutive 10-bit DPD groups of `packed`
(least-significant group in the low bits), combining the per-group
3-digit values in base 1000.  This is the reading of the second argument
consistent with every call site in `decimal32.rs` and with the spec's
fixed points (§8: the coefficient continuation `0x3D0` decodes to `750`;
a full 7-digit coefficient is obtained from `(msd << 20) | cont` with
argument `3`). -/
def digits_from_dpd (packed : Nat) (groups : Nat) : Nat :=
  match groups with
  | 0 => 0
  | n + 1 => digits_from_dpd (packed >>> 10) n * 1000 + declet_value (packed &&& 0x3ff)

-- Encodes an exponent's 2 most significant bits and a coeffecient's most
-- significant digit into a 5-bit combination field (`encode_combination_field`
-- in `decimal32.rs`; `u8` arithmetic, so the left shifts wrap at 2^8).
def encode_combination_field (exp_msb : Nat) (coeff_msd : Nat) : Nat :=
  if coeff_msd ≤ 7 then
    ((exp_msb <<< 3) % 256) ||| (coeff_msd &&& 0x7)
  else
    0x18 ||| ((exp_msb <<< 1) % 256) ||| (coeff_msd &&& 0x1)

namespace Decimal32

/-- `Decimal32::combination_field`: the 5-bit combination field. -/
def combination_field (bits : Nat) : Nat :=
  (bits &&& COMBINATION_MASK) >>> 26

/-- `Decimal32::set_combination_field` (`!COMBINATION_MASK` over `u32` is
`0x83ffffff`; the `u32` shift truncates at 2^32). -/
def set_combination_field (bits : Nat) (comb : Nat) : Nat :=
  (bits &&& 0x83ffffff) ||| ((comb <<< 26) % 2 ^ 32)

/-- `Decimal32::exponent_msb`: 2-bit exponent MSB looked up from the
combination field (the index is always < 32, so `getD` never falls back). -/
def exponent_msb (bits : Nat) : Nat :=
  COMB_EXP_LOOKUP.getD (combination_field bits) 0

/-- `Decimal32::exponent_cont`: the 6-bit exponent continuation. -/
def exponent_cont (bits : Nat) : Nat :=
  (bits &&& EXPONENT_MASK) >>> 20

/-- `Decimal32::set_exponent_cont` (`!EXPONENT_MASK` over `u32` is
`0xfc0fffff`). -/
def set_exponent_cont (bits : Nat) (cont : Nat) : Nat :=
  (bits &&& 0xfc0fffff) ||| (cont <<< 20)

/-- `Decimal32::coeffecient_msd`: most significant coefficient digit
looked up from the combination field. -/
def coeffecient_msd (bits : Nat) : Nat :=
  COMB_DIG_LOOKUP.getD (combination_field bits) 0

/-- `Decimal32::coeffecient_cont`: the 20-bit coefficient continuation. -/
def coeffecient_cont (bits : Nat) : Nat :=
  bits &&& COEFFECIENT_MASK

/-- `Decimal32::new()`: the canonical-zero construction. -/
def new : Nat := ZERO

/-- `Decimal32::sign`: `(bits >> 31) > 0`. -/
def sign (bits : Nat) : Bool :=
  decide (0 < bits >>> 31)

/-- `Decimal32::set_sign` (`!SIGN_MASK` over `u32` is `0x7fffffff`). -/
def set_sign (bits : Nat) (s : Bool) : Nat :=
  (bits &&& 0x7fffffff) ||| ((if s then 1 else 0) <<< 31)

/-- The encoded (biased) exponent read back from the storage word: the
local `encoded_exp` of `Decimal32::exponent` (`u8` arithmetic). -/
def encoded_exponent (bits : Nat) : Nat :=
  (((exponent_msb bits) <<< 6) % 256 + exponent_cont bits) % 256

/-- `Decimal32::exponent`: unbias in `i16`, then narrow with `as i8`. -/
def exponent (bits : Nat) : Int :=
  toI8 ((encoded_exponent bits : Int) - EXPONENT_BIAS)

/-- `Decimal32::set_exponent`.  Returns the state of `self.bits` after the
call together with the Rust `Result` (`&mut self` is made explicit).  On
the range-checked path the biased exponent `(i16::from(exp) +
i16::from(EXPONENT_BIAS)) as u8` is exact because the guards bound it in
`[6, 197]`, hence the plain `.toNat`. -/
def set_exponent (bits : Nat) (exp : Int) :
    Nat × Except DecimalStorageError Unit :=
  if EXPONENT_MAX < exp then (bits, .error .ExponentTooLarge)
  else if exp < EXPONENT_MIN then (bits, .error .ExponentTooSmall)
  else
    let e : Nat := (exp + EXPONENT_BIAS).toNat
    let exp_msb := e >>> 6
    let coeff_msd := coeffecient_msd bits
    let comb := encode_combination_field exp_msb coeff_msd
    let bits1 := set_combination_field bits comb
    let exp_cont := e &&& 0x6f
    let bits2 := set_exponent_cont bits1 exp_cont
    (bits2, .ok ())

/-- `Decimal32::coeffecient`. -/
def coeffecient (bits : Nat) : Nat :=
  let coeff_msd := coeffecient_msd bits
  let coeff_cont := coeffecient_cont bits
  if 0 < coeff_msd then
    digits_from_dpd ((coeff_msd <<< 20) ||| coeff_cont) 3
  else if coeff_cont = 0 then 0
  else if coeff_cont = 0x000ffc00 then digits_from_dpd coeff_cont 2
  else digits_from_dpd coeff_cont 1

/-- `Decimal32::set_coeffecient`: range check, then a `TODO` stub that
returns `Ok(())` without touching `self.bits`. -/
def set_coeffecient (bits : Nat) (coeff : Nat) :
    Nat × Except DecimalStorageError Unit :=
  if COEFFECIENT_MAX < coeff then (bits, .error .CoeffecientTooLarge)
  else (bits, .ok ())

/-- `Decimal32::from_u8`: `new()` then `set_coeffecient(num).unwrap()`
(the unwrap never fails for a `u8` argument). -/
def from_u8 (num : Nat) : Nat :=
  (set_coeffecient new num).fst

/-- `Decimal32::from_u8_checked` (the overriding impl in `decimal32.rs`). -/
def from_u8_checked (num : Nat) : Option Nat :=
  some (from_u8 num)

end Decimal32

/-- The `Decimal` trait's provided default body of `from_u8_checked` in
`decimal.rs`: `None` for every input, for any implementing type. -/
def default_from_u8_checked (α : Type) (_i : Nat) : Option α :=
  none

namespace Decimal32

/-! ### Helper lemmas -/

/-- Masking the output of `set_sign` with a mask that avoids bit 31 sees
exactly the bits of the original word. -/
theorem set_sign_and (bits : Nat) (s : Bool) {m : Nat}
    (h1 : 0x7fffffff &&& m = m) (h2 : 2 ^ 31 &&& m = 0) :
    set_sign bits s &&& m = bits &&& m := by
  have hshift : ((if s then 1 else 0) <<< 31) &&& m = 0 := by
    cases s
    · simp
    · simpa [Nat.shiftLeft_eq] using h2
  calc set_sign bits s &&& m
      = ((bits &&& 0x7fffffff) &&& m) ||| (((if s then 1 else 0) <<< 31) &&& m) := by
        rw [set_sign, Nat.and_distrib_right]
    _ = bits &&& m := by rw [hshift, Nat.or_zero, Nat.and_assoc, h1]

theorem combination_field_set_sign (bits : Nat) (s : Bool) :
    combination_field (set_sign bits s) = combination_field bits := by
  unfold combination_field COMBINATION_MASK
  rw [set_sign_and bits s (by decide) (by decide)]

theorem exponent_cont_set_sign (bits : Nat) (s : Bool) :
    exponent_cont (set_sign bits s) = exponent_cont bits := by
  unfold exponent_cont EXPONENT_MASK
  rw [set_sign_and bits s (by decide) (by decide)]

theorem coeffecient_cont_set_sign (bits : Nat) (s : Bool) :
    coeffecient_cont (set_sign bits s) = coeffecient_cont bits := by
  unfold coeffecient_cont COEFFECIENT_MASK
  rw [set_sign_and bits s (by decide) (by decide)]

theorem coeffecient_msd_set_sign (bits : Nat) (s : Bool) :
    coeffecient_msd (set_sign bits s) = coeffecient_msd bits := by
  unfold coeffecient_msd
  rw [combination_field_set_sign]

theorem exponent_cont_le (bits : Nat) : exponent_cont bits ≤ 63 := by
  unfold exponent_cont EXPONENT_MASK
  have h1 : bits &&& 0x03f00000 ≤ 0x03f00000 := Nat.and_le_right
  calc (bits &&& 0x03f00000) >>> 20
      = (bits &&& 0x03f00000) / 2 ^ 20 := Nat.shiftRight_eq_div_pow ..
    _ ≤ 0x03f00000 / 2 ^ 20 := Nat.div_le_div_right h1
    _ = 63 := by norm_num

end Decimal32

/-! ### Claim theorems -/

open Decimal32

/-- C1: the exponent round-trip fails on the code.  From the all-zero
storage word, `set_exponent(-81)` succeeds but a subsequent `exponent()`
returns `-97`: the continuation is written as `exp & 0x6f` (instead of
`0x3f`), which drops bit 4 of the biased exponent. -/
theorem set_exponent_roundtrip_bug :
    (set_exponent 0 (-81)).snd = Except.ok () ∧
    exponent (set_exponent 0 (-81)).fst = -97 ∧
    coeffecient (set_exponent 0 (-81)).fst = coeffecient 0 := by
  refine ⟨rfl, by decide, by decide⟩

/-- C2: `set_coeffecient` is a `TODO` stub: it range-checks, reports
success, and leaves the storage word untouched, so the coefficient
round-trip asserted by the crate's own `test_decimal32_coeffecient`
fails.  On the all-zero word, `set_coeffecient(5)` returns `Ok` yet
`coeffecient()` still returns `0`. -/
theorem set_coeffecient_stub_bug :
    (set_coeffecient 0 5).snd = Except.ok () ∧
    (set_coeffecient 0 5).fst = 0 ∧
    coeffecient (set_coeffecient 0 5).fst = 0 := by
  refine ⟨rfl, rfl, by decide⟩

/-- C3: `Decimal32::new()` does produce the documented bit pattern
`0x6000_0000` with sign `false`, but that pattern does not encode
`0 × 10^1`: its combination field is `24`, so `exponent()` returns
`-101` (not `1`) and `coeffecient()` returns `8_000_000` (not `0`),
contradicting the `ZERO` constant's own `0E1` doc comment. -/
theorem new_zero_constant_bug :
    new = 0x60000000 ∧ sign new = false ∧
    exponent new = -101 ∧ coeffecient new = 8000000 := by
  refine ⟨rfl, rfl, by decide, by decide⟩

/-- C4 counterexample: the bit pattern `0xA260_03D0` has its top bit set,
so `sign()` returns `true`, not `false` as the claim states. -/
theorem dpd_fixed_point_sign_counterexample :
    ¬ (sign 0xA26003D0 = false) := by decide

/-- C4 amended: `0xA260_03D0` decodes to `exponent() = 1`,
`coeffecient() = 750` and `sign() = true` (not `false`); `0xA230_03D0`
decodes to `exponent() = -2` with `coeffecient() = 750`. -/
theorem dpd_fixed_points_amended :
    exponent 0xA26003D0 = 1 ∧ coeffecient 0xA26003D0 = 750 ∧
    sign 0xA26003D0 = true ∧
    exponent 0xA23003D0 = -2 ∧ coeffecient 0xA23003D0 = 750 := by
  refine ⟨by decide, by decide, by decide, by decide, by decide⟩

/-- C5: over the `i8` domain of `set_exponent` and the `u32` domain of
`set_coeffecient`, the setters fail exactly outside the valid ranges,
and the exponent errors distinguish too-large from too-small. -/
theorem setter_range_errors (bits : Nat) (e : Int) (c : Nat)
    (he : -128 ≤ e ∧ e ≤ 127) (hc : c < 2 ^ 32) :
    ((set_exponent bits e).snd = .error .ExponentTooLarge ↔ 96 < e) ∧
    ((set_exponent bits e).snd = .error .ExponentTooSmall ↔ e < -95) ∧
    ((∃ err, (set_exponent bits e).snd = .error err) ↔ (e < -95 ∨ 96 < e)) ∧
    ((set_coeffecient bits c).snd = .error .CoeffecientTooLarge ↔ 9999999 < c) ∧
    ((∃ err, (set_coeffecient bits c).snd = .error err) ↔ 9999999 < c) := by
  have hexp1 : EXPONENT_MAX = (96 : Int) := rfl
  have hexp2 : EXPONENT_MIN = (-95 : Int) := rfl
  have hcmax : COEFFECIENT_MAX = 9999999 := rfl
  by_cases h1 : (96 : Int) < e
  · simp only [set_exponent, hexp1, hexp2, if_pos h1]
    by_cases h2 : 9999999 < c
    · simp only [set_coeffecient, hcmax, if_pos h2]
      refine ⟨by simp [h1], by simp; omega, by simp [h1], by simp [h2], by simp [h2]⟩
    · simp only [set_coeffecient, hcmax, if_neg h2]
      refine ⟨by simp [h1], by simp; omega, by simp [h1], by simp; omega, by simp; omega⟩
  · by_cases h3 : e < -95
    · simp only [set_exponent, hexp1, hexp2, if_neg h1, if_pos h3]
      by_cases h2 : 9999999 < c
      · simp only [set_coeffecient, hcmax, if_pos h2]
        refine ⟨by simp; omega, by simp [h3], by simp [h3], by simp [h2], by simp [h2]⟩
      · simp only [set_coeffecient, hcmax, if_neg h2]
        refine ⟨by simp; omega, by simp [h3], by simp [h3], by simp; omega, by simp; omega⟩
    · simp only [set_exponent, hexp1, hexp2, if_neg h1, if_neg h3]
      by_cases h2 : 9999999 < c
      · simp only [set_coeffecient, hcmax, if_pos h2]
        refine ⟨by simp; omega, by simp; omega, by simp; omega, by simp [h2], by simp [h2]⟩
      · simp only [set_coeffecient, hcmax, if_neg h2]
        refine ⟨by simp; omega, by simp; omega, by simp; omega, by simp; omega, by simp; omega⟩

/-- Witness for C5 at `bits = 0`, `e = 97`, `c = 10_000_000`. -/
theorem setter_range_errors_witness :
    ((set_exponent 0 97).snd = .error .ExponentTooLarge ↔ (96 : Int) < 97) ∧
    ((set_exponent 0 97).snd = .error .ExponentTooSmall ↔ (97 : Int) < -95) ∧
    ((∃ err, (set_exponent 0 97).snd = .error err) ↔ ((97 : Int) < -95 ∨ (96 : Int) < 97)) ∧
    ((set_coeffecient 0 10000000).snd = .error .CoeffecientTooLarge ↔ 9999999 < 10000000) ∧
    ((∃ err, (set_coeffecient 0 10000000).snd = .error err) ↔ 9999999 < 10000000) :=
  setter_range_errors 0 97 10000000 ⟨by decide, by decide⟩ (by decide)

/-- C6 counterexample: the pattern `0x7880_0000` has combination field
`30`, whose `COMB_EXP_LOOKUP` entry is `3`, so the decoded biased
exponent is `200 ∉ [0, 191]` and `exponent()` returns `99 ∉ [-95, 96]`;
moreover even the all-zero pattern (combination field `0`) yields
`exponent() = -101 ∉ [-95, 96]`. -/
theorem exponent_range_counterexample :
    encoded_exponent 0x78800000 = 200 ∧ exponent 0x78800000 = 99 ∧
    ¬ (encoded_exponent 0x78800000 ≤ 191 ∧
        -95 ≤ exponent 0x78800000 ∧ exponent 0x78800000 ≤ 96) ∧
    ¬ (-95 ≤ exponent 0 ∧ exponent 0 ≤ 96) := by
  refine ⟨by decide, by decide, by decide, by decide⟩

/-- C6 amended: for every storage word whose 5-bit combination field is
at most `29` (i.e. excluding the two lookup rows that carry exponent-MSB
`3`), the decoded biased exponent lies in `[0, 191]` and `exponent()`
returns a value in `[-101, 90]`. -/
theorem exponent_range_amended (bits : Nat) (h : combination_field bits ≤ 29) :
    encoded_exponent bits ≤ 191 ∧ -101 ≤ exponent bits ∧ exponent bits ≤ 90 := by
  have hcont : exponent_cont bits ≤ 63 := exponent_cont_le bits
  have hmsb : exponent_msb bits ≤ 2 := by
    have hb : ∀ i < 30, COMB_EXP_LOOKUP.getD i 0 ≤ 2 := by decide
    simpa [exponent_msb] using hb (combination_field bits) (by omega)
  have henc : encoded_exponent bits ≤ 191 := by
    unfold encoded_exponent
    rw [Nat.shiftLeft_eq]
    omega
  refine ⟨henc, ?_⟩
  unfold exponent toI8 EXPONENT_BIAS
  omega

/-- Witness for C6 amended at `bits = 0`. -/
theorem exponent_range_amended_witness :
    combination_field 0 ≤ 29 ∧
    (encoded_exponent 0 ≤ 191 ∧ -101 ≤ exponent 0 ∧ exponent 0 ≤ 90) :=
  ⟨by decide, exponent_range_amended 0 (by decide)⟩

/-- C7: `encode_combination_field` computes the two documented formulas
(`u8` arithmetic, so the shifts are taken mod 256), and for every
exponent MSB in `[0, 2]` and coefficient MSD in `[0, 9]` the two lookup
tables recover both inputs from the encoded 5-bit field. -/
theorem encode_combination_field_spec :
    (∀ exp_msb coeff_msd : Nat, coeff_msd ≤ 7 →
      encode_combination_field exp_msb coeff_msd =
        ((exp_msb <<< 3) % 256) ||| coeff_msd) ∧
    (∀ exp_msb coeff_msd : Nat, coeff_msd = 8 ∨ coeff_msd = 9 →
      encode_combination_field exp_msb coeff_msd =
        0x18 ||| ((exp_msb <<< 1) % 256) ||| (coeff_msd &&& 1)) ∧
    (∀ exp_msb ≤ 2, ∀ coeff_msd ≤ 9,
      COMB_EXP_LOOKUP.getD (encode_combination_field exp_msb coeff_msd) 0 = exp_msb ∧
      COMB_DIG_LOOKUP.getD (encode_combination_field exp_msb coeff_msd) 0 = coeff_msd) := by
  refine ⟨?_, ?_, ?_⟩
  · intro m d h
    have h8 := Nat.and_pow_two_sub_one_eq_mod d 3
    norm_num at h8
    have h7 : d &&& 7 = d := by omega
    simp [encode_combination_field, h, h7]
  · intro m d h
    rcases h with rfl | rfl <;> simp [encode_combination_field]
  · intro m hm d hd
    interval_cases m <;> interval_cases d <;> decide

/-- Witness for C7 at `exp_msb = 2`, `coeff_msd ∈ {5, 9}`. -/
theorem encode_combination_field_spec_witness :
    encode_combination_field 2 5 = ((2 <<< 3) % 256) ||| 5 ∧
    encode_combination_field 2 9 = 0x18 ||| ((2 <<< 1) % 256) ||| (9 &&& 1) ∧
    COMB_EXP_LOOKUP.getD (encode_combination_field 2 9) 0 = 2 ∧
    COMB_DIG_LOOKUP.getD (encode_combination_field 2 9) 0 = 9 :=
  ⟨encode_combination_field_spec.1 2 5 (by decide),
   encode_combination_field_spec.2.1 2 9 (Or.inr rfl),
   (encode_combination_field_spec.2.2 2 (by decide) 9 (by decide)).1,
   (encode_combination_field_spec.2.2 2 (by decide) 9 (by decide)).2⟩

/-- C8: `set_sign` touches only bit 31, so the exponent and coefficient
read back after `set_sign(s)` are identical to their values before. -/
theorem set_sign_frame (bits : Nat) (s : Bool) :
    exponent (set_sign bits s) = exponent bits ∧
    coeffecient (set_sign bits s) = coeffecient bits := by
  constructor
  · unfold exponent encoded_exponent exponent_msb
    rw [combination_field_set_sign, exponent_cont_set_sign]
  · unfold coeffecient
    rw [coeffecient_msd_set_sign, coeffecient_cont_set_sign]

/-- C9: whenever `set_exponent` or `set_coeffecient` reports an error,
the stored word is returned unchanged (the Rust setters return before
mutating `self.bits`). -/
theorem setters_atomic_on_error (bits : Nat) (e : Int) (c : Nat) :
    ((∃ err, (set_exponent bits e).snd = .error err) →
      (set_exponent bits e).fst = bits) ∧
    ((∃ err, (set_coeffecient bits c).snd = .error err) →
      (set_coeffecient bits c).fst = bits) := by
  constructor
  · rintro ⟨err, herr⟩
    by_cases h1 : EXPONENT_MAX < e
    · simp [set_exponent, h1]
    · by_cases h2 : e < EXPONENT_MIN
      · simp [set_exponent, h1, h2]
      · simp [set_exponent, h1, h2] at herr
  · rintro ⟨err, herr⟩
    by_cases h1 : COEFFECIENT_MAX < c
    · simp [set_coeffecient, h1]
    · simp [set_coeffecient, h1] at herr

/-- Witness for C9 at `bits = 7`, `e = 1000`, `c = 99_999_999`. -/
theorem setters_atomic_on_error_witness :
    (set_exponent 7 1000).fst = 7 ∧ (set_coeffecient 7 99999999).fst = 7 :=
  ⟨(setters_atomic_on_error 7 1000 99999999).1 ⟨.ExponentTooLarge, rfl⟩,
   (setters_atomic_on_error 7 1000 99999999).2 ⟨.CoeffecientTooLarge, rfl⟩⟩

/-- C10: the `Decimal` trait's provided `from_u8_checked` returns `none`
for every `u8` input, while the `Decimal32` implementation overrides it
and returns `some (from_u8 num)` — so the two disagree everywhere. -/
theorem from_u8_checked_override (n : Nat) (_h : n < 256) :
    default_from_u8_checked Nat n = none ∧
    from_u8_checked n = some (from_u8 n) ∧
    from_u8_checked n ≠ default_from_u8_checked Nat n := by
  refine ⟨rfl, rfl, by simp [from_u8_checked, default_from_u8_checked]⟩

/-- Witness for C10 at `n = 200`. -/
theorem from_u8_checked_override_witness :
    default_from_u8_checked Nat 200 = none ∧
    from_u8_checked 200 = some (from_u8 200) ∧
    from_u8_checked 200 ≠ default_from_u8_checked Nat 200 :=
  from_u8_checked_override 200 (by decide)

end Decimally
